import Mathlib

/-!
Verification of the `AthenaConnector` class from
`src/botofication/athena/connector.py`.

The development shallowly embeds the pieces of the connector that the
specification talks about:

* the row-flattening helper `process_data` nested in `status_query`;
* the submit / poll / fetch state machine of `status_query`, modelled
  against an abstract gateway whose calls may fail with transport errors,
  with an explicit event trace recording every remote call and sleep;
* the configuration surface: the argument validation of the constructor
  helpers and the property getters and setters.
-/

set_option maxHeartbeats 1000000

namespace Botofication

/-- The execution states inspected by `status_query`.  The service reports
the state as a string; the connector only distinguishes the five values
listed in the specification. -/
inductive ExecutionState
  | RUNNING
  | QUEUED
  | SUCCEEDED
  | FAILED
  | CANCELLED
deriving DecidableEq, Repr

/-- The terminal-state test of the polling loop, connector.py line 370:
the state is compared against the list of the three terminal names. -/
def isTerminal : ExecutionState → Bool
  | ExecutionState.SUCCEEDED => true
  | ExecutionState.FAILED => true
  | ExecutionState.CANCELLED => true
  | _ => false

/-- A raw result cell as handed to `process_data`: a dictionary that may or
may not carry a `VarCharValue` entry.  `varCharValue = none` models the
missing key, so that `d.get` with default `None` returns `none`. -/
structure RawCell where
  varCharValue : Option String
deriving DecidableEq, Repr

/-- An entry of the `ResultSet.Rows` list handed to `process_data`: either a
dictionary, whose optional `Data` key holds the cell list, or a value that
is not a dictionary, which the code skips via its `isinstance` guard. -/
inductive RawEntry
  | row (data : Option (List RawCell))
  | nonDict
deriving DecidableEq, Repr

/-- `process_data` nested in `status_query`, connector.py lines 382-393.
For each entry of the input: non-dictionaries are skipped; for a
dictionary the cell list is read from the `Data` key with default the
empty list, each cell is mapped to its `VarCharValue` with default `None`,
and the extracted value list is appended only when it has more than one
element. -/
def process_data : List RawEntry → List (List (Option String))
  | [] => []
  | RawEntry.nonDict :: rest => process_data rest
  | RawEntry.row data :: rest =>
      let dict_data := data.getD []
      let values := dict_data.map RawCell.varCharValue
      if values.length > 1 then values :: process_data rest
      else process_data rest

/-- The per-entry extraction step of `process_data`: `none` for an entry
that is not a dictionary, otherwise the extracted cell-value list. -/
def extractRow : RawEntry → Option (List (Option String))
  | RawEntry.nonDict => none
  | RawEntry.row data => some ((data.getD []).map RawCell.varCharValue)

theorem process_data_eq_filter (l : List RawEntry) :
    process_data l =
      (l.filterMap extractRow).filter (fun v => decide (1 < v.length)) := by
  induction l with
  | nil => rfl
  | cons e rest ih =>
      cases e with
      | nonDict => simpa [process_data, extractRow] using ih
      | row data =>
          by_cases h : 1 < ((data.getD []).map RawCell.varCharValue).length
          · simp [process_data, extractRow, List.filter_cons, h, ih]
          · simp [process_data, extractRow, List.filter_cons, h, ih]

theorem length_of_mem_process_data (l : List RawEntry)
    (v : List (Option String)) (hv : v ∈ process_data l) : 1 < v.length := by
  rw [process_data_eq_filter] at hv
  have := List.of_mem_filter hv
  simpa using this

theorem process_data_cons_big (cells : List RawCell) (rest : List RawEntry)
    (h : 1 < cells.length) :
    process_data (RawEntry.row (some cells) :: rest) =
      cells.map RawCell.varCharValue :: process_data rest := by
  have hlen : 1 < (cells.map RawCell.varCharValue).length := by
    simpa using h
  simp [process_data, hlen, h]

/-- A transport-level failure from one of the remote calls: the connector
catches the botocore exception classes and `Exception` alike and only
keeps the message, so the cause is modelled by its message string. -/
structure TransportError where
  msg : String
deriving DecidableEq, Repr

/-- Errors raised by the connector itself. -/
inductive PyError
  | typeError (msg : String)
  | valueError (msg : String)
  | exception (msg : String)
deriving DecidableEq, Repr

/-- The single wrapping of connector.py line 406: any error raised inside
the body of `status_query` is re-raised once as
`Exception("Error While Running Query: " + cause)`. -/
def wrapQueryError (e : TransportError) : PyError :=
  PyError.exception ("Error While Running Query: " ++ e.msg)

/-- One observable event during a run of `status_query`:
a `start_query_execution` call, a `get_query_execution` call together with
the state it returned (`none` when the call raised), a `time.sleep`, or a
`get_query_results` call. -/
inductive Event
  | startCall
  | getStatus (observed : Option ExecutionState)
  | sleepFor (t : Nat)
  | fetchCall
deriving DecidableEq, Repr

/-- The abstract service gateway (the boto3 Athena client): the result of
the submit call, the result of the i-th status call, and the result of the
results call.  Each call either returns or fails with a transport error. -/
structure Gateway where
  startResult : Except TransportError String
  statusResults : Nat → Except TransportError ExecutionState
  fetchResult : Except TransportError (List RawEntry)

/-- Result of the polling loop: the terminal state at which it broke, the
transport error that aborted it, or `running` when the supplied fuel ran
out before a terminal state was observed (the source loop is unbounded,
so `running` only means the modelled window was too short). -/
inductive PollResult
  | ok (s : ExecutionState)
  | err (e : TransportError)
  | running
deriving DecidableEq, Repr

/-- The `while True` polling loop of `status_query`, connector.py lines
364-375: call `get_query_execution`, break on a terminal state, otherwise
sleep 5 and re-poll.  `i` is the index of the next status call; `fuel`
bounds the modelled window of the unbounded loop. -/
def pollLoop (g : Gateway) : Nat → Nat → List Event × PollResult
  | 0, _ => ([], PollResult.running)
  | fuel + 1, i =>
      match g.statusResults i with
      | Except.error e => ([Event.getStatus none], PollResult.err e)
      | Except.ok s =>
          if isTerminal s then ([Event.getStatus (some s)], PollResult.ok s)
          else
            let r := pollLoop g fuel (i + 1)
            (Event.getStatus (some s) :: Event.sleepFor 5 :: r.1, r.2)

/-- Outcome of one run of `status_query`: the flattened table, a raised
(wrapped) error, or `running` when the modelled fuel ran out. -/
inductive Outcome
  | ok (table : List (List (Option String)))
  | err (e : PyError)
  | running
deriving DecidableEq, Repr

/-- `status_query`, connector.py lines 344-406, against an abstract
gateway: submit, poll until a terminal state, then fetch the results once
— note that the fetch happens after the loop breaks on any terminal
state — and flatten them with `process_data`.  Any transport error aborts
the run and is wrapped once by `wrapQueryError`.  The first component is
the trace of events issued, in order. -/
def status_query (g : Gateway) (fuel : Nat) : List Event × Outcome :=
  match g.startResult with
  | Except.error e => ([Event.startCall], Outcome.err (wrapQueryError e))
  | Except.ok _ =>
      let p := pollLoop g fuel 0
      match p.2 with
      | PollResult.running => (Event.startCall :: p.1, Outcome.running)
      | PollResult.err e =>
          (Event.startCall :: p.1, Outcome.err (wrapQueryError e))
      | PollResult.ok _ =>
          match g.fetchResult with
          | Except.error e =>
              (Event.startCall :: p.1 ++ [Event.fetchCall],
               Outcome.err (wrapQueryError e))
          | Except.ok rows =>
              (Event.startCall :: p.1 ++ [Event.fetchCall],
               Outcome.ok (process_data rows))

/-- Is this event a `get_query_execution` call? -/
def isGetStatus : Event → Bool
  | Event.getStatus _ => true
  | _ => false

/-- Is this event a `get_query_results` call? -/
def isFetch : Event → Bool
  | Event.fetchCall => true
  | _ => false

/-- Number of `get_query_execution` calls in a trace. -/
def countGetStatus (tr : List Event) : Nat := (tr.filter isGetStatus).length

/-- Number of `get_query_results` calls in a trace. -/
def countFetch (tr : List Event) : Nat := (tr.filter isFetch).length

/-- The sleep durations of a trace, in order. -/
def sleepsOf (tr : List Event) : List Nat :=
  tr.filterMap fun e =>
    match e with
    | Event.sleepFor t => some t
    | _ => none

/-- The state observed by the i-th status call, if that call returned. -/
def obs (g : Gateway) (i : Nat) : Option ExecutionState :=
  (g.statusResults i).toOption

/-- The events the polling loop issues when the status calls
`i, i+1, ..., i+n` are made and the loop stops at call `i+n`. -/
def pollEvents (g : Gateway) (i : Nat) : Nat → List Event
  | 0 => [Event.getStatus (obs g i)]
  | n + 1 =>
      Event.getStatus (obs g i) :: Event.sleepFor 5 :: pollEvents g (i + 1) n

theorem countGetStatus_pollEvents (g : Gateway) :
    ∀ n i, countGetStatus (pollEvents g i n) = n + 1 := by
  intro n
  induction n with
  | zero => intro i; rfl
  | succ n ih =>
      intro i
      simp [pollEvents, countGetStatus, List.filter, isGetStatus] at ih ⊢
      exact ih (i + 1)

theorem countFetch_pollEvents (g : Gateway) :
    ∀ n i, countFetch (pollEvents g i n) = 0 := by
  intro n
  induction n with
  | zero => intro i; rfl
  | succ n ih =>
      intro i
      simp [pollEvents, countFetch, List.filter, isFetch] at ih ⊢
      exact ih (i + 1)

theorem sleepsOf_pollEvents (g : Gateway) :
    ∀ n i, sleepsOf (pollEvents g i n) = List.replicate n 5 := by
  intro n
  induction n with
  | zero => intro i; rfl
  | succ n ih =>
      intro i
      simp [pollEvents, sleepsOf, List.filterMap] at ih ⊢
      simpa [List.replicate] using ih (i + 1)

theorem fetch_not_mem_pollEvents (g : Gateway) :
    ∀ n i, Event.fetchCall ∉ pollEvents g i n := by
  intro n
  induction n with
  | zero => intro i; simp [pollEvents]
  | succ n ih =>
      intro i
      simp [pollEvents]
      exact ih (i + 1)

theorem last_getStatus_mem_pollEvents (g : Gateway) :
    ∀ n i, Event.getStatus (obs g (i + n)) ∈ pollEvents g i n := by
  intro n
  induction n with
  | zero => intro i; simp [pollEvents]
  | succ n ih =>
      intro i
      have := ih (i + 1)
      rw [show i + 1 + n = i + (n + 1) by omega] at this
      simp [pollEvents]
      exact Or.inr this

theorem pollLoop_ok (g : Gateway) (s : ExecutionState)
    (hs : isTerminal s = true) :
    ∀ (n i fuel : Nat), n < fuel →
      (∀ j, j < n →
        ∃ s', g.statusResults (i + j) = Except.ok s' ∧ isTerminal s' = false) →
      g.statusResults (i + n) = Except.ok s →
      pollLoop g fuel i = (pollEvents g i n, PollResult.ok s) := by
  intro n
  induction n with
  | zero =>
      intro i fuel hfuel hnon hterm
      obtain ⟨f, rfl⟩ : ∃ f, fuel = f + 1 := ⟨fuel - 1, by omega⟩
      rw [Nat.add_zero] at hterm
      simp [pollLoop, hterm, hs, pollEvents, obs, Except.toOption]
  | succ n ih =>
      intro i fuel hfuel hnon hterm
      obtain ⟨f, rfl⟩ : ∃ f, fuel = f + 1 := ⟨fuel - 1, by omega⟩
      obtain ⟨s0, hs0, hs0n⟩ := hnon 0 (by omega)
      rw [Nat.add_zero] at hs0
      have hrec : pollLoop g f (i + 1) = (pollEvents g (i + 1) n, PollResult.ok s) := by
        apply ih (i + 1) f (by omega)
        · intro j hj
          obtain ⟨s', h1, h2⟩ := hnon (j + 1) (by omega)
          exact ⟨s', by rw [show i + 1 + j = i + (j + 1) by omega]; exact h1, h2⟩
        · rw [show i + 1 + n = i + (n + 1) by omega]
          exact hterm
      simp [pollLoop, hs0, hs0n, hrec, pollEvents, obs, Except.toOption]

theorem pollLoop_err (g : Gateway) (e : TransportError) :
    ∀ (n i fuel : Nat), n < fuel →
      (∀ j, j < n →
        ∃ s', g.statusResults (i + j) = Except.ok s' ∧ isTerminal s' = false) →
      g.statusResults (i + n) = Except.error e →
      pollLoop g fuel i = (pollEvents g i n, PollResult.err e) := by
  intro n
  induction n with
  | zero =>
      intro i fuel hfuel hnon hterm
      obtain ⟨f, rfl⟩ : ∃ f, fuel = f + 1 := ⟨fuel - 1, by omega⟩
      rw [Nat.add_zero] at hterm
      simp [pollLoop, hterm, pollEvents, obs, Except.toOption]
  | succ n ih =>
      intro i fuel hfuel hnon hterm
      obtain ⟨f, rfl⟩ : ∃ f, fuel = f + 1 := ⟨fuel - 1, by omega⟩
      obtain ⟨s0, hs0, hs0n⟩ := hnon 0 (by omega)
      rw [Nat.add_zero] at hs0
      have hrec : pollLoop g f (i + 1) = (pollEvents g (i + 1) n, PollResult.err e) := by
        apply ih (i + 1) f (by omega)
        · intro j hj
          obtain ⟨s', h1, h2⟩ := hnon (j + 1) (by omega)
          exact ⟨s', by rw [show i + 1 + j = i + (j + 1) by omega]; exact h1, h2⟩
        · rw [show i + 1 + n = i + (n + 1) by omega]
          exact hterm
      simp [pollLoop, hs0, hs0n, hrec, pollEvents, obs, Except.toOption]

/-- The full trace of a successful run: submit, the polling events, one
fetch. -/
theorem status_query_trace_ok (g : Gateway) (fuel n : Nat)
    (s : ExecutionState) (h : String) (rows : List RawEntry)
    (hstart : g.startResult = Except.ok h)
    (hfuel : n < fuel)
    (hnon : ∀ j, j < n →
      ∃ s', g.statusResults j = Except.ok s' ∧ isTerminal s' = false)
    (hterm : g.statusResults n = Except.ok s)
    (hs : isTerminal s = true)
    (hfetch : g.fetchResult = Except.ok rows) :
    status_query g fuel =
      (Event.startCall :: pollEvents g 0 n ++ [Event.fetchCall],
       Outcome.ok (process_data rows)) := by
  have hpoll := pollLoop_ok g s hs n 0 fuel hfuel
    (by intro j hj; simpa using hnon j hj) (by simpa using hterm)
  simp [status_query, hstart, hpoll, hfetch]

/-- The full trace of a run whose k-th status call raises. -/
theorem status_query_trace_statusErr (g : Gateway) (fuel k : Nat)
    (e : TransportError) (h : String)
    (hstart : g.startResult = Except.ok h)
    (hfuel : k < fuel)
    (hnon : ∀ j, j < k →
      ∃ s', g.statusResults j = Except.ok s' ∧ isTerminal s' = false)
    (herr : g.statusResults k = Except.error e) :
    status_query g fuel =
      (Event.startCall :: pollEvents g 0 k,
       Outcome.err (wrapQueryError e)) := by
  have hpoll := pollLoop_err g e k 0 fuel hfuel
    (by intro j hj; simpa using hnon j hj) (by simpa using herr)
  simp [status_query, hstart, hpoll]

/-- The full trace of a run whose results call raises. -/
theorem status_query_trace_fetchErr (g : Gateway) (fuel n : Nat)
    (s : ExecutionState) (e : TransportError) (h : String)
    (hstart : g.startResult = Except.ok h)
    (hfuel : n < fuel)
    (hnon : ∀ j, j < n →
      ∃ s', g.statusResults j = Except.ok s' ∧ isTerminal s' = false)
    (hterm : g.statusResults n = Except.ok s)
    (hs : isTerminal s = true)
    (hfetch : g.fetchResult = Except.error e) :
    status_query g fuel =
      (Event.startCall :: pollEvents g 0 n ++ [Event.fetchCall],
       Outcome.err (wrapQueryError e)) := by
  have hpoll := pollLoop_ok g s hs n 0 fuel hfuel
    (by intro j hj; simpa using hnon j hj) (by simpa using hterm)
  simp [status_query, hstart, hpoll, hfetch]

theorem countGetStatus_full_trace (g : Gateway) (n : Nat) :
    countGetStatus
      (Event.startCall :: pollEvents g 0 n ++ [Event.fetchCall]) = n + 1 := by
  have := countGetStatus_pollEvents g n 0
  simp [countGetStatus, List.filter_append, List.filter_cons,
    isGetStatus, isFetch] at this ⊢
  exact this

theorem countFetch_full_trace (g : Gateway) (n : Nat) :
    countFetch
      (Event.startCall :: pollEvents g 0 n ++ [Event.fetchCall]) = 1 := by
  have := countFetch_pollEvents g n 0
  simp [countFetch, List.filter_append, List.filter_cons,
    isGetStatus, isFetch] at this ⊢
  exact this

theorem sleepsOf_full_trace (g : Gateway) (n : Nat) :
    sleepsOf (Event.startCall :: pollEvents g 0 n ++ [Event.fetchCall]) =
      List.replicate n 5 := by
  have := sleepsOf_pollEvents g n 0
  simp [sleepsOf, List.filterMap_append] at this ⊢
  exact this

/-- A mock gateway that reports RUNNING on the first three status calls
and SUCCEEDED from the fourth on. -/
def mockStatuses : Nat → Except TransportError ExecutionState :=
  fun i =>
    if i < 3 then Except.ok ExecutionState.RUNNING
    else Except.ok ExecutionState.SUCCEEDED

/-- The mock gateway of the poll-count scenario. -/
def mockGateway : Gateway :=
  { startResult := Except.ok "h1"
    statusResults := mockStatuses
    fetchResult := Except.ok [] }

/-- A gateway whose query immediately reaches the FAILED terminal state,
with every remote call itself succeeding. -/
def failedGateway : Gateway :=
  { startResult := Except.ok "h1"
    statusResults := fun _ => Except.ok ExecutionState.FAILED
    fetchResult := Except.ok [] }

/-- A gateway whose first status call raises a transport error. -/
def errGateway : Gateway :=
  { startResult := Except.ok "h1"
    statusResults := fun _ => Except.error ⟨"boom"⟩
    fetchResult := Except.ok [] }

/-- C1: for every status sequence whose first terminal state appears at
call index n, the polling loop of `status_query` issues exactly n + 1
`GetStatus` calls (so at least one, and none strictly after the first
terminal state), sleeps a flat 5 time-units between the n non-terminal
polls with no retry bound on n, and issues exactly one `FetchResultRows`
call. -/
theorem status_query_poll_counts (g : Gateway) (fuel n : Nat)
    (s : ExecutionState) (h : String) (rows : List RawEntry)
    (hstart : g.startResult = Except.ok h)
    (hfuel : n < fuel)
    (hnon : ∀ j, j < n →
      ∃ s', g.statusResults j = Except.ok s' ∧ isTerminal s' = false)
    (hterm : g.statusResults n = Except.ok s)
    (hs : isTerminal s = true)
    (hfetch : g.fetchResult = Except.ok rows) :
    1 ≤ countGetStatus (status_query g fuel).1 ∧
    countGetStatus (status_query g fuel).1 = n + 1 ∧
    countFetch (status_query g fuel).1 = 1 ∧
    sleepsOf (status_query g fuel).1 = List.replicate n 5 := by
  have htr := status_query_trace_ok g fuel n s h rows hstart hfuel hnon hterm hs hfetch
  rw [htr]
  refine ⟨?_, ?_, ?_, ?_⟩
  · rw [countGetStatus_full_trace]; omega
  · exact countGetStatus_full_trace g n
  · exact countFetch_full_trace g n
  · exact sleepsOf_full_trace g n

/-- C1 witness: the mock gateway returning RUNNING three times and then
SUCCEEDED yields exactly 4 `GetStatus` calls, 1 `FetchResultRows` call,
and three 5-unit sleeps. -/
theorem status_query_poll_counts_witness :
    countGetStatus (status_query mockGateway 10).1 = 4 ∧
    countFetch (status_query mockGateway 10).1 = 1 ∧
    sleepsOf (status_query mockGateway 10).1 = List.replicate 3 5 := by
  have h := status_query_poll_counts mockGateway 10 3 ExecutionState.SUCCEEDED
    "h1" [] rfl (by omega)
    (by
      intro j hj
      exact ⟨ExecutionState.RUNNING, by simp [mockGateway, mockStatuses, hj], rfl⟩)
    (by simp [mockGateway, mockStatuses]) rfl rfl
  exact ⟨h.2.1, h.2.2.1, h.2.2.2⟩

/-- C3 counterexample: for a gateway whose query reaches FAILED at the
very first status call, `status_query` still issues exactly one
`FetchResultRows` call although SUCCEEDED was never observed, refuting
that the fetch happens only after a SUCCEEDED state. -/
theorem fetch_called_without_succeeded :
    countFetch (status_query failedGateway 1).1 = 1 ∧
    Event.getStatus (some ExecutionState.SUCCEEDED) ∉
      (status_query failedGateway 1).1 := by
  decide

/-- C3 amended: `FetchResultRows` is called exactly once per run of
`status_query` (when no call raises), as the last event of the run, only
after the first terminal state — SUCCEEDED, FAILED or CANCELLED — has
been observed, and never before a terminal state was observed. -/
theorem fetch_once_after_first_terminal (g : Gateway) (fuel n : Nat)
    (s : ExecutionState) (h : String) (rows : List RawEntry)
    (hstart : g.startResult = Except.ok h)
    (hfuel : n < fuel)
    (hnon : ∀ j, j < n →
      ∃ s', g.statusResults j = Except.ok s' ∧ isTerminal s' = false)
    (hterm : g.statusResults n = Except.ok s)
    (hs : isTerminal s = true)
    (hfetch : g.fetchResult = Except.ok rows) :
    countFetch (status_query g fuel).1 = 1 ∧
    ∃ pre, (status_query g fuel).1 = pre ++ [Event.fetchCall] ∧
      Event.fetchCall ∉ pre ∧
      Event.getStatus (some s) ∈ pre ∧ isTerminal s = true := by
  have htr := status_query_trace_ok g fuel n s h rows hstart hfuel hnon hterm hs hfetch
  rw [htr]
  refine ⟨countFetch_full_trace g n, Event.startCall :: pollEvents g 0 n, by simp, ?_, ?_, hs⟩
  · simp
    exact fetch_not_mem_pollEvents g n 0
  · have := last_getStatus_mem_pollEvents g n 0
    rw [show (0 : Nat) + n = n by omega] at this
    have hobs : obs g n = some s := by simp [obs, hterm, Except.toOption]
    rw [hobs] at this
    simp
    exact this

/-- C3 amended witness: the mock gateway scenario instantiates the amended
claim with the terminal state SUCCEEDED observed at the fourth call. -/
theorem fetch_once_after_first_terminal_witness :
    countFetch (status_query mockGateway 10).1 = 1 ∧
    ∃ pre, (status_query mockGateway 10).1 = pre ++ [Event.fetchCall] ∧
      Event.fetchCall ∉ pre ∧
      Event.getStatus (some ExecutionState.SUCCEEDED) ∈ pre ∧
      isTerminal ExecutionState.SUCCEEDED = true :=
  fetch_once_after_first_terminal mockGateway 10 3 ExecutionState.SUCCEEDED
    "h1" [] rfl (by omega)
    (by
      intro j hj
      exact ⟨ExecutionState.RUNNING, by simp [mockGateway, mockStatuses, hj], rfl⟩)
    (by simp [mockGateway, mockStatuses]) rfl rfl

/-- C4: when the query reaches the terminal state FAILED or CANCELLED and
no gateway call raises, `status_query` does not raise: it returns the
flattening of the fetched rows. -/
theorem non_success_terminal_still_returns (g : Gateway) (fuel n : Nat)
    (s : ExecutionState) (h : String) (rows : List RawEntry)
    (hstart : g.startResult = Except.ok h)
    (hfuel : n < fuel)
    (hnon : ∀ j, j < n →
      ∃ s', g.statusResults j = Except.ok s' ∧ isTerminal s' = false)
    (hterm : g.statusResults n = Except.ok s)
    (hsfc : s = ExecutionState.FAILED ∨ s = ExecutionState.CANCELLED)
    (hfetch : g.fetchResult = Except.ok rows) :
    (status_query g fuel).2 = Outcome.ok (process_data rows) := by
  have hs : isTerminal s = true := by
    rcases hsfc with rfl | rfl <;> rfl
  have htr := status_query_trace_ok g fuel n s h rows hstart hfuel hnon hterm hs hfetch
  rw [htr]

/-- C4 witness: a gateway reporting FAILED at once makes `status_query`
return the empty flattened table instead of raising. -/
theorem non_success_terminal_still_returns_witness :
    (status_query failedGateway 1).2 = Outcome.ok [] := by
  have h := non_success_terminal_still_returns failedGateway 1 0
    ExecutionState.FAILED "h1" [] rfl (by omega)
    (by intro j hj; omega) rfl (Or.inl rfl) rfl
  simpa [process_data] using h

/-- C6: a transport error at any gateway call inside `status_query` is not
retried: it is wrapped exactly once by `wrapQueryError`, carrying the
underlying cause, and surfaced at once with no further gateway calls —
whether the submit call, a status call, or the results call failed. -/
theorem transport_error_wrapped_once :
    (∀ (g : Gateway) (fuel : Nat) (e : TransportError),
      g.startResult = Except.error e →
      status_query g fuel =
        ([Event.startCall], Outcome.err (wrapQueryError e))) ∧
    (∀ (g : Gateway) (fuel k : Nat) (e : TransportError) (h : String),
      g.startResult = Except.ok h → k < fuel →
      (∀ j, j < k →
        ∃ s', g.statusResults j = Except.ok s' ∧ isTerminal s' = false) →
      g.statusResults k = Except.error e →
      (status_query g fuel).2 = Outcome.err (wrapQueryError e) ∧
      countGetStatus (status_query g fuel).1 = k + 1 ∧
      countFetch (status_query g fuel).1 = 0) ∧
    (∀ (g : Gateway) (fuel n : Nat) (s : ExecutionState) (e : TransportError)
      (h : String),
      g.startResult = Except.ok h → n < fuel →
      (∀ j, j < n →
        ∃ s', g.statusResults j = Except.ok s' ∧ isTerminal s' = false) →
      g.statusResults n = Except.ok s → isTerminal s = true →
      g.fetchResult = Except.error e →
      (status_query g fuel).2 = Outcome.err (wrapQueryError e) ∧
      (status_query g fuel).1 =
        Event.startCall :: pollEvents g 0 n ++ [Event.fetchCall]) := by
  refine ⟨?_, ?_, ?_⟩
  · intro g fuel e he
    simp [status_query, he]
  · intro g fuel k e h hstart hfuel hnon herr
    have htr := status_query_trace_statusErr g fuel k e h hstart hfuel hnon herr
    rw [htr]
    refine ⟨rfl, ?_, ?_⟩
    · have := countGetStatus_pollEvents g k 0
      simp [countGetStatus, List.filter_cons, isGetStatus] at this ⊢
      exact this
    · have := countFetch_pollEvents g k 0
      simp [countFetch, List.filter_cons, isGetStatus, isFetch] at this ⊢
      exact this
  · intro g fuel n s e h hstart hfuel hnon hterm hs hfetch
    have htr := status_query_trace_fetchErr g fuel n s e h hstart hfuel hnon hterm hs hfetch
    rw [htr]
    exact ⟨rfl, rfl⟩

/-- C6 witness: a transport error at the first status call is wrapped once
and surfaced after exactly one status call and no fetch call. -/
theorem transport_error_wrapped_once_witness :
    (status_query errGateway 1).2 = Outcome.err (wrapQueryError ⟨"boom"⟩) ∧
    countGetStatus (status_query errGateway 1).1 = 1 ∧
    countFetch (status_query errGateway 1).1 = 0 :=
  transport_error_wrapped_once.2.1 errGateway 1 0 ⟨"boom"⟩ "h1" rfl (by omega)
    (by intro j hj; omega) rfl

/-- C2: `process_data` keeps exactly the rows whose extracted cell list
has more than one cell, passes kept rows through unchanged in order, and
on the four sample rows with 0, 1, 2 and 3 cells returns the last two
rows. -/
theorem process_data_keeps_long_rows :
    (∀ l : List RawEntry,
      process_data l =
        (l.filterMap extractRow).filter (fun v => decide (1 < v.length))) ∧
    process_data
      [RawEntry.row (some []),
       RawEntry.row (some [⟨some "a"⟩]),
       RawEntry.row (some [⟨some "a"⟩, ⟨some "b"⟩]),
       RawEntry.row (some [⟨some "a"⟩, ⟨some "b"⟩, ⟨some "c"⟩])] =
      [[some "a", some "b"], [some "a", some "b", some "c"]] :=
  ⟨process_data_eq_filter, by decide⟩

/-- C5: a cell whose `VarCharValue` entry is missing flattens to `none`
and not to the empty string, a present value is passed through, and a
kept row is exactly the cell-wise image, so the null/empty distinction
survives flattening. -/
theorem missing_value_flattens_to_null :
    (∀ (cells : List RawCell) (rest : List RawEntry), 1 < cells.length →
      process_data (RawEntry.row (some cells) :: rest) =
        cells.map RawCell.varCharValue :: process_data rest) ∧
    RawCell.varCharValue ⟨none⟩ = none ∧
    (∀ v : String, RawCell.varCharValue ⟨some v⟩ = some v) ∧
    RawCell.varCharValue ⟨none⟩ ≠ some "" :=
  ⟨process_data_cons_big, rfl, fun _ => rfl, by decide⟩

/-- C5 witness: a two-cell row with a missing value and an empty-string
value flattens to a null next to an empty string. -/
theorem missing_value_flattens_to_null_witness :
    process_data [RawEntry.row (some [⟨none⟩, ⟨some ""⟩])] =
      [[none, some ""]] := by
  have h := missing_value_flattens_to_null.1 [⟨none⟩, ⟨some ""⟩] [] (by decide)
  rw [h]
  rfl

/-- C9: `process_data` silently skips entries that are not dictionaries,
and every row of its output — hence of every table `status_query`
returns — has more than one cell. -/
theorem flattened_rows_have_two_cells :
    (∀ rest : List RawEntry,
      process_data (RawEntry.nonDict :: rest) = process_data rest) ∧
    (∀ (l : List RawEntry) (v : List (Option String)),
      v ∈ process_data l → 1 < v.length) ∧
    (∀ (g : Gateway) (fuel : Nat) (tbl : List (List (Option String))),
      (status_query g fuel).2 = Outcome.ok tbl →
      ∀ v ∈ tbl, 1 < v.length) := by
  refine ⟨fun rest => rfl, length_of_mem_process_data, ?_⟩
  intro g fuel tbl hok v hv
  rcases hstart : g.startResult with e | h
  · simp [status_query, hstart] at hok
  · rcases hpoll : (pollLoop g fuel 0).2 with s | e
    · rcases hfetch : g.fetchResult with e | rows
      · simp [status_query, hstart, hpoll, hfetch] at hok
      · simp [status_query, hstart, hpoll, hfetch] at hok
        subst hok
        exact length_of_mem_process_data rows v hv
    · simp [status_query, hstart, hpoll] at hok
    · simp [status_query, hstart, hpoll] at hok

/-- C9 witness: a concrete flattened table membership with its length
bound. -/
theorem flattened_rows_have_two_cells_witness :
    ([some "a", some "b"] ∈
        process_data [RawEntry.row (some [⟨some "a"⟩, ⟨some "b"⟩])]) ∧
    1 < ([some "a", some "b"] : List (Option String)).length :=
  ⟨by decide,
   flattened_rows_have_two_cells.2.1
     [RawEntry.row (some [⟨some "a"⟩, ⟨some "b"⟩])]
     [some "a", some "b"] (by decide)⟩

/-- A Python value, as far as the connector's validation observes one:
only `None`-ness, string-ness, and truthiness matter.  Integers and
booleans stand in for the non-string values a caller could pass. -/
inductive PyVal
  | vNone
  | vStr (s : String)
  | vInt (n : Int)
  | vBool (b : Bool)
deriving DecidableEq, Repr

/-- Python truthiness for the modelled values. -/
def truthy : PyVal → Bool
  | PyVal.vNone => false
  | PyVal.vStr s => !(s == "")
  | PyVal.vInt n => !(n == 0)
  | PyVal.vBool b => b

/-- `isinstance(v, str)` for the modelled values. -/
def isStr : PyVal → Bool
  | PyVal.vStr _ => true
  | _ => false

/-- Is `needle` an initial segment of `hay`? -/
def leadsWith : List Char → List Char → Bool
  | [], _ => true
  | _ :: _, [] => false
  | a :: as, b :: bs => a == b && leadsWith as bs

/-- Python's substring test `needle in hay`, on character lists. -/
def hasSub (needle : List Char) : List Char → Bool
  | [] => leadsWith needle []
  | b :: bs => leadsWith needle (b :: bs) || hasSub needle bs

/-- Python's substring test `needle in hay`, on strings. -/
def hasSubStr (needle hay : String) : Bool :=
  hasSub needle.toList hay.toList

/-- The nested `__check` helper of `__get_args`, connector.py lines
433-436: with `k` the argument value and `v` its name, raise a TypeError
exactly when `("region" in v or k) and not isinstance(k, str)`. -/
def check (k : PyVal) (v : String) : Except PyError Unit :=
  if (hasSubStr "region" v || truthy k) && !(isStr k) then
    Except.error
      (PyError.typeError ("`" ++ v ++ "` -> Expected String Or Bytes-Like Object"))
  else Except.ok ()

/-- The configuration state stored by `__init__`: one private field per
constructor argument.  The boto3 client construction is an external side
effect and is not modelled. -/
structure AthenaConnector where
  region : PyVal
  database : PyVal
  workgroup : PyVal
  data_catalog : PyVal
  output_bucket : PyVal
  output_location : PyVal
  aws_access_key_id : PyVal
  aws_secret_access_key : PyVal
deriving DecidableEq, Repr

/-- `__get_args`, connector.py lines 408-456, which is all the validation
`__init__` performs: run `__check` on each argument in declaration order
and return the argument record. -/
def get_args (region database workgroup data_catalog output_bucket
    output_location aws_access_key_id aws_secret_access_key : PyVal) :
    Except PyError AthenaConnector := do
  check region "region"
  check database "database"
  check workgroup "workgroup"
  check data_catalog "data_catalog"
  check output_bucket "output_bucket"
  check output_location "output_location"
  check aws_access_key_id "aws_access_key_id"
  check aws_secret_access_key "aws_secret_access_key"
  pure ⟨region, database, workgroup, data_catalog, output_bucket,
    output_location, aws_access_key_id, aws_secret_access_key⟩

/-- The `database` property getter, connector.py lines 50-60: raise a
ValueError when the stored field is falsy, else return it. -/
def databaseGetter (c : AthenaConnector) : Except PyError PyVal :=
  if !(truthy c.database) then
    Except.error (PyError.valueError "Database Name Not Provided!")
  else Except.ok c.database

/-- The `output_bucket` property getter, connector.py lines 75-85. -/
def output_bucketGetter (c : AthenaConnector) : Except PyError PyVal :=
  if !(truthy c.output_bucket) then
    Except.error (PyError.valueError "Output Bucket Not Provided!")
  else Except.ok c.output_bucket

/-- The `output_location` property getter, connector.py lines 100-110. -/
def output_locationGetter (c : AthenaConnector) : Except PyError PyVal :=
  if !(truthy c.output_location) then
    Except.error (PyError.valueError "Output Location Not Provided!")
  else Except.ok c.output_location

/-- The `workgroup` property getter, connector.py lines 125-135. -/
def workgroupGetter (c : AthenaConnector) : Except PyError PyVal :=
  if !(truthy c.workgroup) then
    Except.error (PyError.valueError "Workgroup Not Provided!")
  else Except.ok c.workgroup

/-- The `data_catalog` property getter, connector.py lines 150-160. -/
def data_catalogGetter (c : AthenaConnector) : Except PyError PyVal :=
  if !(truthy c.data_catalog) then
    Except.error (PyError.valueError "Data Catalog Not Provided!")
  else Except.ok c.data_catalog

/-- The `database` setter, connector.py lines 62-73: a non-string raises a
TypeError before the assignment, so the stored field stays unchanged; a
string is stored. -/
def databaseSetter (c : AthenaConnector) (v : PyVal) :
    AthenaConnector × Option PyError :=
  if !(isStr v) then
    (c, some (PyError.typeError "`database` -> Expected String Or Bytes-Like Object"))
  else ({ c with database := v }, none)

/-- The `output_bucket` setter, connector.py lines 87-98. -/
def output_bucketSetter (c : AthenaConnector) (v : PyVal) :
    AthenaConnector × Option PyError :=
  if !(isStr v) then
    (c, some (PyError.typeError "`output_bucket` -> Expected String Or Bytes-Like Object"))
  else ({ c with output_bucket := v }, none)

/-- The `output_location` setter, connector.py lines 112-123. -/
def output_locationSetter (c : AthenaConnector) (v : PyVal) :
    AthenaConnector × Option PyError :=
  if !(isStr v) then
    (c, some (PyError.typeError "`output_location` -> Expected String Or Bytes-Like Object"))
  else ({ c with output_location := v }, none)

/-- The `workgroup` setter, connector.py lines 137-148. -/
def workgroupSetter (c : AthenaConnector) (v : PyVal) :
    AthenaConnector × Option PyError :=
  if !(isStr v) then
    (c, some (PyError.typeError "`workgroup` -> Expected String Or Bytes-Like Object"))
  else ({ c with workgroup := v }, none)

/-- The `data_catalog` setter, connector.py lines 162-173. -/
def data_catalogSetter (c : AthenaConnector) (v : PyVal) :
    AthenaConnector × Option PyError :=
  if !(isStr v) then
    (c, some (PyError.typeError "`data_catalog` -> Expected String Or Bytes-Like Object"))
  else ({ c with data_catalog := v }, none)

/-- A connector constructed with every argument left at `None`. -/
def emptyConnector : AthenaConnector :=
  ⟨PyVal.vNone, PyVal.vNone, PyVal.vNone, PyVal.vNone, PyVal.vNone,
   PyVal.vNone, PyVal.vNone, PyVal.vNone⟩

/-- The argument names other than `region`. -/
def otherArgNames : List String :=
  ["database", "workgroup", "data_catalog", "output_bucket",
   "output_location", "aws_access_key_id", "aws_secret_access_key"]

theorem hasSub_region_region :
    hasSubStr "region" "region" = true := by decide

theorem hasSub_of_mem_other (nm : String) (hnm : nm ∈ otherArgNames) :
    hasSubStr "region" nm = false := by
  fin_cases hnm <;> decide

theorem check_region_nonstr (v : PyVal) (hv : isStr v = false) :
    check v "region" =
      Except.error
        (PyError.typeError "`region` -> Expected String Or Bytes-Like Object") := by
  cases v with
  | vStr s => simp [isStr] at hv
  | vNone => rfl
  | vInt n => rfl
  | vBool b => rfl

theorem check_other_eq (nm : String)
    (hnm : hasSubStr "region" nm = false) (v : PyVal) :
    check v nm =
      if truthy v && !(isStr v) then
        Except.error
          (PyError.typeError ("`" ++ nm ++ "` -> Expected String Or Bytes-Like Object"))
      else Except.ok () := by
  simp [check, hnm]

/-- C7: construction with a required field such as database, output
bucket or workgroup absent succeeds — the argument validation lets `None`
through for every field but region — and the descriptive configuration
error is raised only at the point of use, by the property getter of the
missing field; when the field is present the getter returns it. -/
theorem config_validated_lazily :
    (∀ r : String,
      get_args (PyVal.vStr r) PyVal.vNone PyVal.vNone PyVal.vNone PyVal.vNone
          PyVal.vNone PyVal.vNone PyVal.vNone =
        Except.ok
          ⟨PyVal.vStr r, PyVal.vNone, PyVal.vNone, PyVal.vNone, PyVal.vNone,
           PyVal.vNone, PyVal.vNone, PyVal.vNone⟩) ∧
    (∀ c : AthenaConnector, truthy c.database = false →
      databaseGetter c =
        Except.error (PyError.valueError "Database Name Not Provided!")) ∧
    (∀ c : AthenaConnector, truthy c.output_bucket = false →
      output_bucketGetter c =
        Except.error (PyError.valueError "Output Bucket Not Provided!")) ∧
    (∀ c : AthenaConnector, truthy c.workgroup = false →
      workgroupGetter c =
        Except.error (PyError.valueError "Workgroup Not Provided!")) ∧
    (∀ c : AthenaConnector, truthy c.database = true →
      databaseGetter c = Except.ok c.database) := by
  refine ⟨fun r => rfl, ?_, ?_, ?_, ?_⟩
  · intro c hc; simp [databaseGetter, hc]
  · intro c hc; simp [output_bucketGetter, hc]
  · intro c hc; simp [workgroupGetter, hc]
  · intro c hc; simp [databaseGetter, hc]

/-- C7 witness: a connector built with no database configured raises the
descriptive error only when the getter is used. -/
theorem config_validated_lazily_witness :
    databaseGetter emptyConnector =
      Except.error (PyError.valueError "Database Name Not Provided!") :=
  config_validated_lazily.2.1 emptyConnector rfl

/-- C8: each of the five configuration setters rejects a non-string value
with a TypeError, leaving the stored field unchanged, and stores any
string value. -/
theorem setters_validate_type (c : AthenaConnector) (v : PyVal) :
    (isStr v = false →
      databaseSetter c v =
        (c, some (PyError.typeError
          "`database` -> Expected String Or Bytes-Like Object")) ∧
      output_bucketSetter c v =
        (c, some (PyError.typeError
          "`output_bucket` -> Expected String Or Bytes-Like Object")) ∧
      output_locationSetter c v =
        (c, some (PyError.typeError
          "`output_location` -> Expected String Or Bytes-Like Object")) ∧
      workgroupSetter c v =
        (c, some (PyError.typeError
          "`workgroup` -> Expected String Or Bytes-Like Object")) ∧
      data_catalogSetter c v =
        (c, some (PyError.typeError
          "`data_catalog` -> Expected String Or Bytes-Like Object"))) ∧
    (isStr v = true →
      databaseSetter c v = ({ c with database := v }, none) ∧
      output_bucketSetter c v = ({ c with output_bucket := v }, none) ∧
      output_locationSetter c v = ({ c with output_location := v }, none) ∧
      workgroupSetter c v = ({ c with workgroup := v }, none) ∧
      data_catalogSetter c v = ({ c with data_catalog := v }, none)) := by
  constructor
  · intro hv
    simp [databaseSetter, output_bucketSetter, output_locationSetter,
      workgroupSetter, data_catalogSetter, hv]
  · intro hv
    simp [databaseSetter, output_bucketSetter, output_locationSetter,
      workgroupSetter, data_catalogSetter, hv]

/-- C8 witness: assigning the integer 3 to `database` raises and leaves
the connector unchanged; assigning the string db stores it. -/
theorem setters_validate_type_witness :
    databaseSetter emptyConnector (PyVal.vInt 3) =
      (emptyConnector,
       some (PyError.typeError
         "`database` -> Expected String Or Bytes-Like Object")) ∧
    databaseSetter emptyConnector (PyVal.vStr "db") =
      ({ emptyConnector with database := PyVal.vStr "db" }, none) :=
  ⟨((setters_validate_type emptyConnector (PyVal.vInt 3)).1 rfl).1,
   ((setters_validate_type emptyConnector (PyVal.vStr "db")).2 rfl).1⟩

/-- C10: `region` must be a string — any non-string value, `None`
included, raises a TypeError, also at construction — while every other
configuration argument accepts `None` and raises a TypeError only for a
truthy non-string value; any string is accepted everywhere. -/
theorem region_argument_must_be_string :
    (∀ v : PyVal, isStr v = false →
      check v "region" =
        Except.error (PyError.typeError
          "`region` -> Expected String Or Bytes-Like Object")) ∧
    (∀ v d w dc ob ol ak sk : PyVal, isStr v = false →
      get_args v d w dc ob ol ak sk =
        Except.error (PyError.typeError
          "`region` -> Expected String Or Bytes-Like Object")) ∧
    (∀ nm, nm ∈ otherArgNames → check PyVal.vNone nm = Except.ok ()) ∧
    (∀ nm v, nm ∈ otherArgNames → truthy v = true → isStr v = false →
      check v nm =
        Except.error (PyError.typeError
          ("`" ++ nm ++ "` -> Expected String Or Bytes-Like Object"))) ∧
    (∀ nm v, nm ∈ otherArgNames → truthy v = false →
      check v nm = Except.ok ()) ∧
    (∀ (nm : String) (v : PyVal), isStr v = true →
      check v nm = Except.ok ()) := by
  refine ⟨check_region_nonstr, ?_, ?_, ?_, ?_, ?_⟩
  · intro v d w dc ob ol ak sk hv
    cases v with
    | vStr s => simp [isStr] at hv
    | vNone => rfl
    | vInt n => rfl
    | vBool b => rfl
  · intro nm hnm
    fin_cases hnm <;> rfl
  · intro nm v hnm htr hv
    rw [check_other_eq nm (hasSub_of_mem_other nm hnm)]
    simp [htr, hv]
  · intro nm v hnm htr
    rw [check_other_eq nm (hasSub_of_mem_other nm hnm)]
    simp [htr]
  · intro nm v hv
    simp [check, hv]

/-- C10 witness: passing `None` for region raises the TypeError. -/
theorem region_argument_must_be_string_witness :
    check PyVal.vNone "region" =
      Except.error (PyError.typeError
        "`region` -> Expected String Or Bytes-Like Object") :=
  region_argument_must_be_string.1 PyVal.vNone rfl

end Botofication
